import Mathlib

/-!
Shallow embedding of `src/Week_1/link-checker.py` (a sequential link
checker: fetch each seed page, extract `http`-prefixed anchor hrefs,
check each link's HTTP status, render a markdown table).

Modelling decisions:
* The network (`requests.get(url, timeout=10)`) is an environment
  `Env : String → Nat → FetchResult`: either it raises a
  `requests.exceptions.RequestException` (modelled as `.failure kind`)
  or returns a response carrying a status code and a body.  The body is
  modelled already parsed (what `BeautifulSoup(response.text).find_all`
  walks): the document-ordered list of `<a>` tags, each with an optional
  `href` attribute (`find_all('a', href=True)` keeps only those with one).
* Python's `dict` (insertion-ordered, assignment replaces the value of an
  existing key in place) is modelled as an association list with
  `dictInsert` / `dictGet`.
* The markdown writer is modelled as the pure string it writes.
-/

/-- Classification of a network-level failure (`requests.exceptions.RequestException`
subclasses). The Python code catches them all uniformly; the kind is kept in the
model so we can state which information the code discards. -/
inductive FailureKind where
  | timeout
  | connectionError
  | dnsError
  | tlsError
  | other
deriving DecidableEq, Repr

/-- A parsed HTML document, abstracted to its `<a>` tags in document order;
each entry is the tag's `href` attribute (`none` when the tag has no `href`). -/
abbrev Doc := List (Option String)

/-- Outcome of one `requests.get` call: a response (status code plus parsed
body) or a raised `RequestException` of some kind. -/
inductive FetchResult where
  | success (statusCode : Nat) (body : Doc)
  | failure (kind : FailureKind)
deriving Repr

/-- The network environment: what `requests.get(url, timeout)` does.
Deterministic within one run. -/
abbrev Env := String → Nat → FetchResult

/-- One HTTP request issued by the program: the URL passed to `requests.get`
and the `timeout` keyword argument. -/
structure Request where
  url : String
  timeout : Nat
deriving DecidableEq, Repr

/-- `get_link_status` (lines 6-22): try `requests.get(link, timeout=10)`;
on success record `response.status_code`, on `RequestException` record the
sentinel `0`; return `(link, status_code)`. -/
def get_link_status (env : Env) (link : String) : String × Nat :=
  match env link 10 with
  | .success statusCode _ => (link, statusCode)
  | .failure _ => (link, 0)

/-- Python's `s.startswith(p)`: the characters of `p` are a prefix of the
characters of `s`. -/
def startswith (s p : String) : Bool :=
  p.data.isPrefixOf s.data

/-- The link-collection loop of `extract_http_links` (lines 44-50):
`for a_tag in soup.find_all('a', href=True)`, keep `href` iff
`href.startswith('http')`, in document order. -/
def page_links (body : Doc) : List String :=
  (body.filterMap id).filter (fun href => startswith href "http")

/-- Python `result[url] = v`: replace the value of an existing key in place
(keeping its position in insertion order), else append the new binding. -/
def dictInsert (k : String) (v : α) : List (String × α) → List (String × α)
  | [] => [(k, v)]
  | (k', v') :: rest =>
    if k' = k then (k, v) :: rest else (k', v') :: dictInsert k v rest

/-- Python `d.get(k, dflt)`. -/
def dictGet (d : List (String × α)) (k : String) (dflt : α) : α :=
  match d with
  | [] => dflt
  | (k', v) :: rest => if k' = k then v else dictGet rest k dflt

/-- The value `extract_http_links` assigns for one seed (lines 38-61):
on a successful page fetch, the status pairs of the page's `http`-prefixed
links in document order; on `RequestException`, the empty list. -/
def pageEntry (env : Env) (url : String) : List (String × Nat) :=
  match env url 10 with
  | .success _ body => (page_links body).map (get_link_status env)
  | .failure _ => []

/-- The `for url in urls` loop of `extract_http_links` (lines 37-61),
threading the `result` dict. -/
def extract_http_links_loop (env : Env) (urls : List String)
    (result : List (String × List (String × Nat))) :
    List (String × List (String × Nat)) :=
  match urls with
  | [] => result
  | url :: rest =>
    extract_http_links_loop env rest (dictInsert url (pageEntry env url) result)

/-- `extract_http_links` (lines 24-64): starts from `result = {}`. -/
def extract_http_links (env : Env) (urls : List String) :
    List (String × List (String × Nat)) :=
  extract_http_links_loop env urls []

/-- The links extracted for one seed as the code sees them
(empty when the seed fetch raises). -/
def extractedLinksOf (env : Env) (url : String) : List String :=
  match env url 10 with
  | .success _ body => page_links body
  | .failure _ => []

/-- The requests `get_link_status` issues: exactly one
`requests.get(link, timeout=10)`. -/
def get_link_status_requests (link : String) : List Request :=
  [⟨link, 10⟩]

/-- The requests issued while processing one seed: one
`requests.get(url, timeout=10)` for the page, then one per extracted link
via `get_link_status`. -/
def pageRequests (env : Env) (url : String) : List Request :=
  ⟨url, 10⟩ :: (extractedLinksOf env url).flatMap get_link_status_requests

/-- All requests issued by `extract_http_links env urls`, in program order. -/
def extract_http_links_requests (env : Env) (urls : List String) : List Request :=
  urls.flatMap (pageRequests env)

/-- The markdown content written by `save_links_to_markdown` (lines 66-98),
as the concatenation of the strings passed to `f.write`. -/
def save_links_to_markdown (env : Env) (urls : List String) : String :=
  let links_dict := extract_http_links env urls
  let header := "# Link Checker Results\n\n"
    ++ "| Source URL | Link | Status Code |\n"
    ++ "|------------|------|------------|\n"
  header ++ String.join (urls.map (fun url =>
    let links := dictGet links_dict url []
    if links.isEmpty then
      s!"| {url} | No links found or URL unreachable | - |\n"
    else
      String.join (links.map (fun ls => s!"| {url} | {ls.1} | {ls.2} |\n"))))

-- Concrete environments used by counterexamples and witnesses.

/-- Environment where every request raises a connection error. -/
def envConnFail : Env := fun _ _ => .failure .connectionError

/-- Environment where every page fetch succeeds with an empty body. -/
def envOk : Env := fun _ _ => .success 200 []

/-- Environment where every page fetch succeeds but the body holds only a
relative link (no `http` prefix). -/
def envRelOnly : Env := fun _ _ => .success 200 [some "/relative"]

example : get_link_status envConnFail "https://y.example" = ("https://y.example", 0) := rfl
example : extract_http_links envOk ["a", "a"] = [("a", [])] := rfl
example : page_links [some "/relative", none, some "https://x.example"] = ["https://x.example"] := by decide

-- Association-list (Python dict) lemmas.

theorem map_fst_dictInsert_of_not_mem (k : String) (v : α)
    (d : List (String × α)) (h : k ∉ d.map Prod.fst) :
    dictInsert k v d = d ++ [(k, v)] := by
  induction d with
  | nil => rfl
  | cons hd tl ih =>
    obtain ⟨a, b⟩ := hd
    simp only [List.map_cons, List.mem_cons] at h
    push_neg at h
    simp only [dictInsert, if_neg (Ne.symm h.1), List.cons_append]
    exact congrArg _ (ih h.2)

theorem mem_map_fst_dictInsert (m k : String) (v : α) (d : List (String × α)) :
    m ∈ (dictInsert k v d).map Prod.fst ↔ m = k ∨ m ∈ d.map Prod.fst := by
  induction d with
  | nil => simp [dictInsert]
  | cons hd tl ih =>
    obtain ⟨a, b⟩ := hd
    by_cases hak : a = k
    · subst hak
      simp [dictInsert]
    · simp only [dictInsert, if_neg hak, List.map_cons, List.mem_cons, ih]
      tauto

theorem dictGet_dictInsert_self (k : String) (v : α) (d : List (String × α))
    (dflt : α) : dictGet (dictInsert k v d) k dflt = v := by
  induction d with
  | nil => simp [dictInsert, dictGet]
  | cons hd tl ih =>
    obtain ⟨a, b⟩ := hd
    by_cases hak : a = k
    · subst hak
      simp [dictInsert, dictGet]
    · simp [dictInsert, dictGet, hak, ih]

theorem dictGet_dictInsert_ne (m k : String) (v : α) (d : List (String × α))
    (dflt : α) (h : m ≠ k) :
    dictGet (dictInsert k v d) m dflt = dictGet d m dflt := by
  induction d with
  | nil => simp [dictInsert, dictGet, Ne.symm h]
  | cons hd tl ih =>
    obtain ⟨a, b⟩ := hd
    by_cases hak : a = k
    · subst hak
      simp [dictInsert, dictGet, Ne.symm h]
    · by_cases ham : a = m
      · subst ham
        simp [dictInsert, dictGet, hak]
      · simp [dictInsert, dictGet, hak, ham, ih]

-- Lemmas about the seed loop.

theorem loop_get_of_not_mem (env : Env) (urls : List String) (url : String)
    (h : url ∉ urls) :
    ∀ d, dictGet (extract_http_links_loop env urls d) url [] = dictGet d url [] := by
  induction urls with
  | nil => intro d; rfl
  | cons u rest ih =>
    intro d
    simp only [List.mem_cons] at h
    push_neg at h
    rw [extract_http_links_loop, ih h.2, dictGet_dictInsert_ne _ _ _ _ _ h.1]

theorem loop_get_of_mem (env : Env) (urls : List String) (url : String)
    (h : url ∈ urls) :
    ∀ d, dictGet (extract_http_links_loop env urls d) url [] = pageEntry env url := by
  induction urls with
  | nil => cases h
  | cons u rest ih =>
    intro d
    by_cases hr : url ∈ rest
    · rw [extract_http_links_loop]
      exact ih hr _
    · have hu : url = u := by
        rcases List.mem_cons.mp h with h1 | h1
        · exact h1
        · exact absurd h1 hr
      subst hu
      rw [extract_http_links_loop, loop_get_of_not_mem env rest url hr,
        dictGet_dictInsert_self]

theorem mem_map_fst_loop (env : Env) (urls : List String) :
    ∀ d u, (u ∈ urls ∨ u ∈ d.map Prod.fst) →
      u ∈ (extract_http_links_loop env urls d).map Prod.fst := by
  induction urls with
  | nil =>
    intro d u h
    rcases h with h | h
    · cases h
    · exact h
  | cons a rest ih =>
    intro d u h
    rw [extract_http_links_loop]
    apply ih
    rcases h with h | h
    · rcases List.mem_cons.mp h with h1 | h1
      · exact Or.inr ((mem_map_fst_dictInsert u a _ d).mpr (Or.inl h1))
      · exact Or.inl h1
    · exact Or.inr ((mem_map_fst_dictInsert u a _ d).mpr (Or.inr h))

theorem loop_map_fst_nodup (env : Env) (urls : List String) (h : urls.Nodup) :
    ∀ d, (∀ u ∈ urls, u ∉ d.map Prod.fst) →
      (extract_http_links_loop env urls d).map Prod.fst = d.map Prod.fst ++ urls := by
  induction urls with
  | nil => intro d _; simp [extract_http_links_loop]
  | cons u rest ih =>
    intro d hd
    have hnd := List.nodup_cons.mp h
    rw [extract_http_links_loop,
      ih hnd.2 _ (fun x hx => by
        rw [mem_map_fst_dictInsert]
        push_neg
        exact ⟨fun hxu => hnd.1 (hxu ▸ hx), hd x (List.mem_cons_of_mem u hx)⟩),
      map_fst_dictInsert_of_not_mem u _ d (hd u (List.mem_cons_self u rest))]
    simp

/-- Shared lemma: the report entry for any seed in the list is `pageEntry`. -/
theorem extract_get (env : Env) (urls : List String) (url : String)
    (h : url ∈ urls) :
    dictGet (extract_http_links env urls) url [] = pageEntry env url :=
  loop_get_of_mem env urls url h []

/-- Shared lemma: the first component of `get_link_status` is the input link. -/
theorem fst_get_link_status (env : Env) (link : String) :
    (get_link_status env link).1 = link := by
  unfold get_link_status
  cases env link 10 <;> rfl

theorem map_fst_map_get_link_status (env : Env) (ls : List String) :
    (ls.map (get_link_status env)).map Prod.fst = ls := by
  induction ls with
  | nil => rfl
  | cons a t ih => simp [ih, fst_get_link_status]

/-- C1 counterexample: under an environment where the request raises a
connection error, the recorded outcome IS the integer 0 — the code uses the
sentinel-zero convention, not a tagged failure value. -/
theorem c1_failure_recorded_as_zero :
    get_link_status envConnFail "https://y.example" = ("https://y.example", 0) ∧
    (get_link_status envConnFail "https://y.example").2 = 0 :=
  ⟨rfl, rfl⟩

/-- C1 (amended): for every link whose check fails at the network level the
recorded outcome is the sentinel integer 0, the same integer for every failure
kind; 0 lies outside the range 100-599 of real HTTP status codes, so failures
remain distinguishable from statuses actually produced by servers, but they
are represented by the integer 0. -/
theorem get_link_status_failure_sentinel (env : Env) (link : String)
    (k : FailureKind) (h : env link 10 = .failure k) :
    (get_link_status env link).2 = 0 ∧
      ¬(100 ≤ (get_link_status env link).2 ∧ (get_link_status env link).2 ≤ 599) := by
  simp [get_link_status, h]

/-- C1 witness: the amended theorem applied to a concrete failing link. -/
theorem get_link_status_failure_sentinel_witness :
    envConnFail "https://y.example" 10 = .failure .connectionError ∧
      ((get_link_status envConnFail "https://y.example").2 = 0 ∧
        ¬(100 ≤ (get_link_status envConnFail "https://y.example").2 ∧
          (get_link_status envConnFail "https://y.example").2 ≤ 599)) :=
  ⟨rfl, get_link_status_failure_sentinel envConnFail "https://y.example"
    .connectionError rfl⟩

/-- C2 counterexample: with a duplicated seed the report (a Python dict keyed
by seed URL) has one entry, not two: the entry count is the number of distinct
seeds, not the length of the seed list. -/
theorem c2_duplicate_seeds_collapse :
    extract_http_links envOk ["https://a.example", "https://a.example"] =
      [("https://a.example", [])] ∧
    (extract_http_links envOk ["https://a.example", "https://a.example"]).length ≠
      (["https://a.example", "https://a.example"] : List String).length :=
  ⟨rfl, by decide⟩

/-- C2 (amended): for every seed list WITHOUT duplicates, the report contains
exactly one entry per seed, keyed by that seed, in the same order as the seeds
were given; with duplicated seeds the report instead has one entry per
distinct seed. -/
theorem extract_http_links_one_entry_per_seed (env : Env) (urls : List String)
    (h : urls.Nodup) :
    (extract_http_links env urls).map Prod.fst = urls := by
  have := loop_map_fst_nodup env urls h [] (by simp)
  simpa [extract_http_links] using this

/-- C2 witness: the amended theorem applied to a concrete duplicate-free
seed list. -/
theorem extract_http_links_one_entry_per_seed_witness :
    (["https://a.example", "https://b.example"] : List String).Nodup ∧
      (extract_http_links envOk ["https://a.example", "https://b.example"]).map
        Prod.fst = ["https://a.example", "https://b.example"] :=
  ⟨by decide, extract_http_links_one_entry_per_seed envOk
    ["https://a.example", "https://b.example"] (by decide)⟩

/-- C3: when the request completes with an HTTP response, `get_link_status`
surfaces exactly that response's status code, uninterpreted — 3xx/4xx/5xx are
neither treated as errors nor altered by this layer. -/
theorem get_link_status_surfaces_status (env : Env) (link : String)
    (s : Nat) (body : Doc) (h : env link 10 = .success s body) :
    get_link_status env link = (link, s) := by
  simp [get_link_status, h]

/-- Environment where every request succeeds with status 404. -/
def env404 : Env := fun _ _ => .success 404 []

/-- C3 witness: a 404 response is surfaced as 404, not treated as an error. -/
theorem get_link_status_surfaces_status_witness :
    env404 "https://x.example" 10 = .success 404 [] ∧
      get_link_status env404 "https://x.example" = ("https://x.example", 404) :=
  ⟨rfl, get_link_status_surfaces_status env404 "https://x.example" 404 [] rfl⟩

/-- C5: the extractor keeps exactly the href values that begin with `http`
(membership characterisation over the hrefs present in the document), and a
document none of whose hrefs begins with `http` yields the empty list — a
value, not a failure. -/
theorem page_links_keeps_exactly_http (body : Doc) :
    (∀ href, href ∈ page_links body ↔
        href ∈ body.filterMap id ∧ startswith href "http" = true) ∧
    ((∀ href ∈ body.filterMap id, startswith href "http" = false) →
      page_links body = []) := by
  constructor
  · intro href
    simp [page_links, List.mem_filter]
  · intro h
    rw [page_links, List.filter_eq_nil_iff]
    intro a ha
    simp [h a ha]

/-- C5 witness: a document holding only a relative path, a `mailto:`, a
bare anchor and a fragment reference extracts to the empty list. -/
theorem page_links_keeps_exactly_http_witness :
    page_links [some "/relative", some "mailto:info@example.org", none,
      some "#frag", some "javascript:void(0)"] = [] :=
  (page_links_keeps_exactly_http _).2 (by decide)

/-- C9: `get_link_status` always returns the input link, unchanged, as the
first component of its result — whether the request succeeds or fails. -/
theorem get_link_status_preserves_link (env : Env) (link : String) :
    (get_link_status env link).1 = link :=
  fst_get_link_status env link

/-- C4 counterexample: a seed whose fetch fails and a seed whose page was
fetched but held only a relative link produce identical reports — the code
records no `pageFetchOutcome`, only an empty links list. -/
theorem c4_no_page_fetch_outcome :
    extract_http_links envConnFail ["https://a.example"] =
      extract_http_links envRelOnly ["https://a.example"] ∧
    extract_http_links envConnFail ["https://a.example"] =
      [("https://a.example", [])] := by
  exact ⟨by decide, by decide⟩

/-- C4 (amended): a seed whose page fetch fails gets an empty links list (but
no recorded fetch outcome: the failure is indistinguishable from a successful
fetch that found zero http links), and no failure aborts processing — every
seed still appears in the report, and for every successfully fetched seed
every extracted link still gets a recorded result, however many of its
sibling link checks fail. -/
theorem failed_seed_empty_and_no_abort (env : Env) (urls : List String)
    (url : String) (k : FailureKind) (hmem : url ∈ urls)
    (hfail : env url 10 = .failure k) :
    dictGet (extract_http_links env urls) url [] = [] ∧
    (∀ u ∈ urls, u ∈ (extract_http_links env urls).map Prod.fst) ∧
    (∀ u s body, u ∈ urls → env u 10 = .success s body →
      (dictGet (extract_http_links env urls) u []).length =
        (page_links body).length) := by
  refine ⟨?_, ?_, ?_⟩
  · rw [extract_get env urls url hmem]
    simp [pageEntry, hfail]
  · intro u hu
    exact mem_map_fst_loop env urls [] u (Or.inl hu)
  · intro u s body hu hs
    rw [extract_get env urls u hu]
    simp [pageEntry, hs]

/-- Environment with one unreachable seed, one reachable seed whose page
links to `x.example` twice, and every link check raising. -/
def envMixed : Env := fun u _ =>
  if u = "https://bad.example" then .failure .dnsError
  else if u = "https://good.example" then
    .success 200 [some "https://x.example", some "/rel", some "https://x.example"]
  else .failure .connectionError

/-- The two-seed list used with `envMixed`. -/
def urlsMixed : List String := ["https://bad.example", "https://good.example"]

/-- C4 witness: the amended theorem at `envMixed`: the bad seed maps to `[]`,
the good seed still appears, and both of its (failing) links are recorded. -/
theorem failed_seed_empty_and_no_abort_witness :
    dictGet (extract_http_links envMixed urlsMixed) "https://bad.example" [] = [] ∧
    "https://good.example" ∈ (extract_http_links envMixed urlsMixed).map Prod.fst ∧
    (dictGet (extract_http_links envMixed urlsMixed) "https://good.example" []).length =
      (page_links [some "https://x.example", some "/rel", some "https://x.example"]).length :=
  ⟨(failed_seed_empty_and_no_abort envMixed urlsMixed "https://bad.example"
      .dnsError (by decide) rfl).1,
   (failed_seed_empty_and_no_abort envMixed urlsMixed "https://bad.example"
      .dnsError (by decide) rfl).2.1 "https://good.example" (by decide),
   (failed_seed_empty_and_no_abort envMixed urlsMixed "https://bad.example"
      .dnsError (by decide) rfl).2.2 "https://good.example" 200 _ (by decide) rfl⟩

/-- C6: for every seed in the list whose page fetch succeeds, the recorded
links are exactly the page's `http`-prefixed hrefs in document order — no
deduplication, no reordering (duplicated hrefs survive the `filter`/`map`
pipeline verbatim). -/
theorem links_preserve_document_order (env : Env) (urls : List String)
    (url : String) (s : Nat) (body : Doc)
    (hmem : url ∈ urls) (hfetch : env url 10 = .success s body) :
    (dictGet (extract_http_links env urls) url []).map Prod.fst =
      page_links body := by
  rw [extract_get env urls url hmem]
  simp only [pageEntry, hfetch]
  exact map_fst_map_get_link_status env (page_links body)

/-- C6 witness: a page linking to `x.example` twice keeps both occurrences,
in document order. -/
theorem links_preserve_document_order_witness :
    "https://good.example" ∈ urlsMixed ∧
    envMixed "https://good.example" 10 =
      .success 200 [some "https://x.example", some "/rel", some "https://x.example"] ∧
    (dictGet (extract_http_links envMixed urlsMixed) "https://good.example" []).map
        Prod.fst =
      page_links [some "https://x.example", some "/rel", some "https://x.example"] :=
  ⟨by decide, rfl,
   links_preserve_document_order envMixed urlsMixed "https://good.example" 200
     [some "https://x.example", some "/rel", some "https://x.example"]
     (by decide) rfl⟩

example :
    (dictGet (extract_http_links envMixed urlsMixed) "https://good.example" []).map
      Prod.fst = ["https://x.example", "https://x.example"] := by decide

-- Request-trace lemmas for the timeout / single-attempt claim.

theorem flatMap_get_link_status_requests (ls : List String) :
    ls.flatMap get_link_status_requests = ls.map (fun l => Request.mk l 10) := by
  induction ls with
  | nil => rfl
  | cons a t ih => simp [get_link_status_requests, ih]

theorem count_map_request (u : String) (ls : List String) :
    (ls.map (fun l => Request.mk l 10)).count ⟨u, 10⟩ = ls.count u := by
  induction ls with
  | nil => rfl
  | cons a t ih => simp [List.count_cons, ih, Request.mk.injEq]

/-- C7: every request the pipeline issues (seed-page fetch and per-link check
alike) carries timeout 10, and for every URL string the number of requests to
it is exactly its multiplicity as a seed plus its multiplicity among the
extracted links of the seeds — one attempt per link, no retries. -/
theorem requests_timeout_ten_and_once (env : Env) (urls : List String)
    (u : String) :
    (∀ r ∈ extract_http_links_requests env urls, r.timeout = 10) ∧
    (extract_http_links_requests env urls).count ⟨u, 10⟩ =
      urls.count u +
        (urls.map (fun url => (extractedLinksOf env url).count u)).sum := by
  constructor
  · intro r hr
    rw [extract_http_links_requests] at hr
    rcases List.mem_flatMap.mp hr with ⟨url, _, hmem⟩
    rw [pageRequests, flatMap_get_link_status_requests] at hmem
    rcases List.mem_cons.mp hmem with h1 | h1
    · rw [h1]
    · rcases List.mem_map.mp h1 with ⟨l, _, hl⟩
      rw [← hl]
  · induction urls with
    | nil => rfl
    | cons a t ih =>
      rw [extract_http_links_requests, List.flatMap_cons, List.count_append,
        pageRequests, flatMap_get_link_status_requests]
      rw [extract_http_links_requests] at ih
      rw [List.count_cons, count_map_request, ih]
      simp only [List.count_cons, List.map_cons, List.sum_cons, beq_iff_eq,
        Request.mk.injEq, and_true]
      omega

-- The §8 example scenario.

/-- The page body of the §8 scenario: anchors to `x.example`, a relative
path, and `y.example`, in that order. -/
def body8 : Doc :=
  [some "https://x.example", some "/relative", some "https://y.example"]

/-- The §8 scenario environment: the seed page succeeds with `body8`,
`x.example` answers 200, `y.example` raises a connection error. -/
def env8 : Env := fun u _ =>
  if u = "https://a.example/page" then .success 200 body8
  else if u = "https://x.example" then .success 200 []
  else .failure .connectionError

/-- Like `env8` but `y.example` times out instead of a connection refusal. -/
def env8timeout : Env := fun u _ =>
  if u = "https://a.example/page" then .success 200 body8
  else if u = "https://x.example" then .success 200 []
  else .failure .timeout

/-- C8 counterexample: in the §8 scenario the second link's recorded outcome
is the integer 0, not a `ConnectionError` value — indeed the report is
identical when the failure is a timeout instead, so the recorded outcome
cannot be the claimed distinguishable `ConnectionError`. -/
theorem c8_outcome_is_zero_not_tagged :
    (dictGet (extract_http_links env8 ["https://a.example/page"])
        "https://a.example/page" []) =
      [("https://x.example", 200), ("https://y.example", 0)] ∧
    extract_http_links env8 ["https://a.example/page"] =
      extract_http_links env8timeout ["https://a.example/page"] :=
  ⟨by decide, by decide⟩

/-- C8 (amended): the §8 scenario produces exactly one report entry, for the
seed page, holding two link results in document order: `x.example` with
status 200, then `y.example` with the sentinel 0 the code records for its
connection error. -/
theorem scenario_report :
    extract_http_links env8 ["https://a.example/page"] =
      [("https://a.example/page",
        [("https://x.example", 200), ("https://y.example", 0)])] := by
  decide

/-- Shared lemma: a single-seed run whose report entry is empty renders to
the header plus the placeholder row. -/
theorem save_single_placeholder (env : Env) (url : String)
    (h : dictGet (extract_http_links env [url]) url ([] : List (String × Nat)) = []) :
    save_links_to_markdown env [url] =
      "# Link Checker Results\n\n"
        ++ "| Source URL | Link | Status Code |\n"
        ++ "|------------|------|------------|\n"
        ++ s!"| {url} | No links found or URL unreachable | - |\n" := by
  simp only [save_links_to_markdown, List.map_cons, List.map_nil, h,
    List.isEmpty_nil, if_true, String.join, List.foldl_cons, List.foldl_nil,
    String.empty_append]

/-- C10: a seed whose page fetch failed and a seed whose page was fetched but
contained zero http-prefixed links render to the identical markdown, ending
in the identical placeholder row — the two cases are indistinguishable in the
output. -/
theorem markdown_placeholder_indistinguishable (env1 env2 : Env) (url : String)
    (k : FailureKind) (s : Nat) (body : Doc)
    (h1 : env1 url 10 = .failure k) (h2 : env2 url 10 = .success s body)
    (hb : page_links body = []) :
    save_links_to_markdown env1 [url] = save_links_to_markdown env2 [url] ∧
    save_links_to_markdown env1 [url] =
      "# Link Checker Results\n\n"
        ++ "| Source URL | Link | Status Code |\n"
        ++ "|------------|------|------------|\n"
        ++ s!"| {url} | No links found or URL unreachable | - |\n" := by
  have g1 : dictGet (extract_http_links env1 [url]) url ([] : List (String × Nat)) = [] := by
    rw [extract_get env1 [url] url (List.mem_singleton.mpr rfl)]
    simp [pageEntry, h1]
  have g2 : dictGet (extract_http_links env2 [url]) url ([] : List (String × Nat)) = [] := by
    rw [extract_get env2 [url] url (List.mem_singleton.mpr rfl)]
    simp [pageEntry, h2, hb]
  have r1 := save_single_placeholder env1 url g1
  have r2 := save_single_placeholder env2 url g2
  exact ⟨r1.trans r2.symm, r1⟩

/-- C10 witness: the theorem at a concrete unreachable seed and a concrete
seed holding only a relative link. -/
theorem markdown_placeholder_indistinguishable_witness :
    envConnFail "https://a.example" 10 = .failure .connectionError ∧
    envRelOnly "https://a.example" 10 = .success 200 [some "/relative"] ∧
    page_links [some "/relative"] = [] ∧
    (save_links_to_markdown envConnFail ["https://a.example"] =
        save_links_to_markdown envRelOnly ["https://a.example"] ∧
      save_links_to_markdown envConnFail ["https://a.example"] =
        "# Link Checker Results\n\n"
          ++ "| Source URL | Link | Status Code |\n"
          ++ "|------------|------|------------|\n"
          ++ "| https://a.example | No links found or URL unreachable | - |\n") :=
  ⟨rfl, rfl, by decide,
   markdown_placeholder_indistinguishable envConnFail envRelOnly
     "https://a.example" .connectionError 200 [some "/relative"] rfl rfl
     (by decide)⟩
